import Mathlib

/-!
# A verification model of the akso-script interpreter and type analyzer

This file embeds the core of the akso-script JavaScript implementation
(`src/types.js`, `src/analyze.js`, `src/eval.js`, `src/stdlib.js`,
`src/vmfun.js`) into Lean and proves properties of the embedding.

Conventions used throughout:

* JavaScript numbers are modelled as rationals (`ℚ`); every number the
  claims exercise is exactly representable.
* JavaScript `Symbol` identifiers are modelled by `Nat` tags.
* Recursion that is unbounded in JavaScript (type reduction and
  application, the evaluator, the analyzer) is modelled with an explicit
  fuel parameter; exhausting fuel yields a distinguished marker that no
  theorem's run ever reaches.
* Object identity (used by the source for locks) is modelled by explicit
  numeric tags carried on analyzer nodes.
* The source's memoization caches (`WeakMap`s keyed on node identity) are
  not modelled: for the pure programs appearing in the claims they only
  affect sharing, never results.
-/

namespace AksoScript

/-! ## The type domain (`src/types.js`)

The source represents types as: six interned symbols (`NEVER`, `NULL`,
`BOOL`, `NUMBER`, `STRING`, `ARRAY`), instances of `createPrimitiveType`
(only `timestamp`), `TypeVar`, `UnresolvedType` (a subclass of `TypeVar`),
`UnionType` (a signature-keyed map), `AppliedType`, `FuncType` (a list of
`TypeMapping`s), `FunctionPattern` (only in pattern position) and
`ErrorType`. `stdlibTypes.contains` additionally stores the raw JavaScript
numbers `0` and `1` in pattern position; `rawNum` models those. -/

mutual

inductive Ty where
  | never
  | null
  | bool
  | number
  | string
  | arrayC
  | prim (name : String)
  | tvar (id : Nat)
  | unres (id : Nat)
  | union (members : List Ty)
  | applied (recv : Ty) (args : List Ty)
  | func (mappings : List TyMapping)
  | fnPattern (binding : Ty) (arity : Nat)
  | error (tag : String)
  | rawNum (n : Nat)

inductive TyMapping where
  | mk (bindings : List Ty) (patterns : List Ty) (type : Ty)

end

def TyMapping.bindings : TyMapping → List Ty
  | .mk b _ _ => b

def TyMapping.patterns : TyMapping → List Ty
  | .mk _ p _ => p

def TyMapping.type : TyMapping → Ty
  | .mk _ _ t => t

/-- The do-while loop of the `TypeVar` constructor, with the iteration
count bounded by the fuel (the counter shrinks by a factor 26 per step,
so `n + 1` steps always suffice). -/
def varNameGo : Nat → Nat → String
  | 0, _ => ""
  | steps + 1, r =>
    String.singleton (Char.ofNat (r % 26 + 0x61)) ++
      (if r / 26 = 0 then "" else varNameGo steps (r / 26))

/-- The printable name of the `n`-th type variable: the `TypeVar`
constructor emits the little-endian base-26 digits of the counter as
letters (`0 ↦ "a"`, `26 ↦ "ab"`, …). -/
def varName (n : Nat) : String := varNameGo (n + 1) n

/-- Lexicographic string comparison by code unit (what JavaScript's
default `Array.prototype.sort` uses; all characters appearing in
signatures compare identically by code unit and code point). -/
def charListLe : List Char → List Char → Bool
  | [], _ => true
  | _ :: _, [] => false
  | a :: as, b :: bs =>
    if a.toNat < b.toNat then true
    else if b.toNat < a.toNat then false
    else charListLe as bs

def strLe (a b : String) : Bool := charListLe a.toList b.toList

/-- Insertion sort on strings, standing in for JavaScript's default
`Array.prototype.sort`. -/
def insertSorted (s : String) : List String → List String
  | [] => [s]
  | x :: xs => if strLe s x then s :: x :: xs else x :: insertSorted s xs

def sortStrings : List String → List String
  | [] => []
  | x :: xs => insertSorted x (sortStrings xs)

mutual

/-- `signature(type)` from `src/types.js`: the deterministic textual form
of a type. `rawNum` has no `signature` property in the source (the raw
number contributes `undefined`, rendered as the empty string by
`Array.prototype.join`); it is modelled as `""`. -/
def signatureT : Ty → String
  | .never => "!"
  | .null => "()"
  | .bool => "bool"
  | .number => "num"
  | .string => "str"
  | .arrayC => "[]"
  | .prim name => name
  | .tvar id => "$" ++ varName id
  | .unres id => "?" ++ varName id
  | .union members =>
    "(" ++ String.intercalate " | " (sortStrings (signatureList members)) ++ ")"
  | .applied recv args =>
    "(" ++ signatureT recv ++ " " ++ String.intercalate " " (signatureList args) ++ ")"
  | .func mappings => "f(" ++ String.intercalate "," (signatureMappings mappings) ++ ")"
  | .fnPattern binding arity =>
    signatureT binding ++ ":(" ++
      String.intercalate "," (List.replicate arity "·") ++ ")->·"
  | .error tag => "ERROR!(" ++ tag ++ ")"
  | .rawNum _ => ""

def signatureList : List Ty → List String
  | [] => []
  | t :: ts => signatureT t :: signatureList ts

def signatureMappings : List TyMapping → List String
  | [] => []
  | .mk _ patterns type :: ms =>
    ("(" ++ String.intercalate "," (signatureList patterns) ++ ")->" ++ signatureT type)
      :: signatureMappings ms

end

/-- `UnionType.add`: skip a member whose signature is already present. -/
def unionAdd (acc : List Ty) (t : Ty) : List Ty :=
  if acc.any (fun u => signatureT u == signatureT t) then acc else acc ++ [t]

/-- `union(types)` from `src/types.js`: deduplicate by signature; zero
members collapse to `NEVER` and a single member is returned bare. -/
def unionOf (types : List Ty) : Ty :=
  match types.foldl unionAdd [] with
  | [] => .never
  | [t] => t
  | members => .union members

/-- `array(type)` applies the `ARRAY` symbol; but since `apply` is
fuel-indexed the convenience wrapper lives below (`arrayT`). This is the
syntactic result for arguments that are not halting-poisonous, used to
build the stdlib types. -/
def arraySyn (t : Ty) : Ty := .applied .arrayC [t]

mutual

/-- `doesHalt(type)`: `some true` if the type provably halts, `some false`
if it provably diverges, `none` for "might halt" (JavaScript `null`). -/
def doesHaltT : Ty → Option Bool
  | .never => some false
  | .null | .bool | .number | .string | .arrayC => some true
  | .prim _ => some true
  | .tvar _ => some true
  | .unres _ => some true
  | .union members => doesHaltUnion members (some true)
  | .applied recv args =>
    let a := doesHaltT recv :: doesHaltList args
    if a.any (· == some false) then some false
    else if a.any (· == none) then none
    else some true
  | .func mappings => doesHaltMappings mappings
  | .fnPattern _ _ => some true
  | .error _ => none
  | .rawNum _ => some true

def doesHaltList : List Ty → List (Option Bool)
  | [] => []
  | t :: ts => doesHaltT t :: doesHaltList ts

/-- `UnionType.doesHalt` reduces with `(a, b) ↦ null` when `b` is `false`
or either side is `null`, starting from `true`: a union member that
diverges only makes the whole union *possibly* non-halting. -/
def doesHaltUnion : List Ty → Option Bool → Option Bool
  | [], acc => acc
  | t :: ts, acc =>
    let b := doesHaltT t
    let acc' := if b == some false then none
      else if acc == none || b == none then none
      else some true
    doesHaltUnion ts acc'

/-- `FuncType.doesHalt`: walk the mappings up to (and including) the first
tautology; JavaScript's `!mapping.doesHalt` is true both for `false` and
for `null`, so either yields `false` for the whole function. -/
def doesHaltMappings : List TyMapping → Option Bool
  | [] => some true
  | .mk _ patterns type :: ms =>
    if doesHaltT type != some true then some false
    else if patterns.all isTyVarPattern then some true
    else doesHaltMappings ms

/-- `TypeMapping.isTautology`: every pattern is a `TypeVar` instance
(which includes `UnresolvedType`). -/
def isTyVarPattern : Ty → Bool
  | .tvar _ => true
  | .unres _ => true
  | _ => false

end

mutual

/-- `isValid(type)`: false iff the type contains an `ErrorType` (walking
function mappings only up to the first tautology). -/
def isValidT : Ty → Bool
  | .never | .null | .bool | .number | .string | .arrayC => true
  | .prim _ => true
  | .tvar _ => true
  | .unres _ => true
  | .union members => isValidList members
  | .applied recv args => isValidT recv && isValidList args
  | .func mappings => isValidMappings mappings
  | .fnPattern _ _ => true
  | .error _ => false
  | .rawNum _ => true

def isValidList : List Ty → Bool
  | [] => true
  | t :: ts => isValidT t && isValidList ts

def isValidMappings : List TyMapping → Bool
  | [] => true
  | .mk _ patterns type :: ms =>
    if !isValidT type then false
    else if patterns.all isTyVarPattern then true
    else isValidMappings ms

end

/-- JavaScript `===` between the six interned type symbols (and, for
`subst`/`matchPattern`, between a symbol and an arbitrary type, which can
only succeed on the identical symbol). -/
def symEq : Ty → Ty → Bool
  | .never, .never => true
  | .null, .null => true
  | .bool, .bool => true
  | .number, .number => true
  | .string, .string => true
  | .arrayC, .arrayC => true
  | _, _ => false

/-- Identity of `TypeVar`/`UnresolvedType` objects: the global counter
gives every variable a distinct id, so identity is id equality within the
same constructor. -/
def varEq : Ty → Ty → Bool
  | .tvar i, .tvar j => i == j
  | .unres i, .unres j => i == j
  | _, _ => false

mutual

/-- `subst(type, key, value)` from `src/types.js`. Notable source
behavior preserved here: `AppliedType.subst` rebuilds the application
without re-applying; `FuncType.subst` substitutes into mapping result
types only when the key is an `UnresolvedType` and otherwise leaves the
function untouched (α-safety); `prim.subst` compares by signature.
`FunctionPattern` and `rawNum` have no `subst` method in the source and
are never substituted into; they map to themselves. -/
def substT (k v : Ty) (t : Ty) : Ty :=
  match t with
  | .never => if symEq k .never then v else .never
  | .null => if symEq k .null then v else .null
  | .bool => if symEq k .bool then v else .bool
  | .number => if symEq k .number then v else .number
  | .string => if symEq k .string then v else .string
  | .arrayC => if symEq k .arrayC then v else .arrayC
  | .prim name => if signatureT k == name then v else .prim name
  | .tvar i => if varEq k (.tvar i) then v else .tvar i
  | .unres i => if varEq k (.unres i) then v else .unres i
  | .union members => unionOf (substList k v members)
  | .applied recv args => .applied (substT k v recv) (substList k v args)
  | .func mappings =>
    match k with
    | .unres i => .func (substMappings (.unres i) v mappings)
    | _ => .func mappings
  | .fnPattern b a => .fnPattern b a
  | .error tag => .error tag
  | .rawNum n => .rawNum n
termination_by structural t

def substList (k v : Ty) (ts : List Ty) : List Ty :=
  match ts with
  | [] => []
  | t :: ts => substT k v t :: substList k v ts
termination_by structural ts

def substMappings (k v : Ty) (ms : List TyMapping) : List TyMapping :=
  match ms with
  | [] => []
  | .mk bindings patterns type :: ms =>
    .mk bindings patterns (substT k v type) :: substMappings k v ms
termination_by structural ms

end

/-- The arity of a function type: `mappings[0].arity` (0 when the mapping
list is empty, which the source constructor rejects). -/
def funcArity : List TyMapping → Nat
  | [] => 0
  | .mk _ patterns _ :: _ => patterns.length

/-- The outcome of `TypeMapping.matchApply`: a type on success, `null`
when a type-variable argument blocked matching, `false` when the mapping
simply does not match, and an `argc` `ErrorType` on arity mismatch. -/
inductive MatchRes where
  | errRes (tag : String)
  | matched (t : Ty)
  | varSkip
  | noMatch

/-- The mutable state of a `matchApply` run: the `hasVarArg` flag and the
bindings map (a JavaScript `Map`, so insertion-ordered with in-place
update on an existing key). -/
structure MatchSt where
  hasVar : Bool
  bindings : List (Ty × Ty)

def setBinding (st : MatchSt) (k v : Ty) : MatchSt :=
  if st.bindings.any (fun p => varEq p.1 k) then
    { st with bindings := st.bindings.map (fun p => if varEq p.1 k then (p.1, v) else p) }
  else
    { st with bindings := st.bindings ++ [(k, v)] }

mutual

/-- The inner `matchPattern(pat, ty)` of `TypeMapping.matchApply`. A
type-variable argument always fails and records `hasVarArg`; a symbol
pattern matches by identity; an applied pattern matches receiver and
argument-wise; a function pattern matches any function of its arity and
binds it; a variable pattern matches anything else and binds it; every
other pattern (unions, functions, primitives, errors, raw numbers) falls
through to `false`. -/
def matchPatternT (pat : Ty) (ty : Ty) (st : MatchSt) : Bool × MatchSt :=
  if isTyVarPattern ty then (false, { st with hasVar := true })
  else match pat with
    | .never | .null | .bool | .number | .string | .arrayC => (symEq pat ty, st)
    | .applied pr pargs =>
      match ty with
      | .applied tr targs =>
        if pargs.length != targs.length then (false, st)
        else
          match matchPatternT pr tr st with
          | (false, st') => (false, st')
          | (true, st') => matchPatternList pargs targs st'
      | _ => (false, st)
    | .fnPattern binding arity =>
      match ty with
      | .func ms =>
        if funcArity ms == arity then (true, setBinding st binding (.func ms))
        else (false, st)
      | _ => (false, st)
    | .tvar i => (true, setBinding st (.tvar i) ty)
    | .unres i => (true, setBinding st (.unres i) ty)
    | _ => (false, st)
termination_by structural pat

def matchPatternList (pats : List Ty) (tys : List Ty) (st : MatchSt) : Bool × MatchSt :=
  match pats, tys with
  | [], _ => (true, st)
  | _, [] => (true, st)
  | p :: ps, t :: ts =>
    match matchPatternT p t st with
    | (false, st') => (false, st')
    | (true, st') => matchPatternList ps ts st'
termination_by structural pats

end

/-- `TypeMapping.matchApply(tys)`: arity check, then pattern matching with
variable detection, then substitution of the collected bindings into the
mapping's result type in insertion order. -/
def matchApplyT (m : TyMapping) (tys : List Ty) : MatchRes :=
  if tys.length != m.patterns.length then .errRes "argc"
  else
    match matchPatternList m.patterns tys ⟨false, []⟩ with
    | (true, st) => .matched (st.bindings.foldl (fun t p => substT p.1 p.2 t) m.type)
    | (false, st) => if st.hasVar then .varSkip else .noMatch

/-- The mapping loop of `FuncType.apply` (parameterized by the `reduce`
function of the enclosing fuel level): a truthy `matchApply` result (a
matched type or the `argc` error) is reduced twice and returned; a
`null` result returns the deferred `AppliedType` stub for the *whole*
function (`self`) immediately; `false` tries the next mapping; exhausting
the mappings yields the `undefined` error type. -/
def funcApplyGoF (reduceP : Ty → Ty) (self : Ty) (args : List Ty) :
    List TyMapping → Ty
  | [] => .error "undefined"
  | m :: rest =>
    match matchApplyT m args with
    | .errRes tag => reduceP (reduceP (.error tag))
    | .matched t => reduceP (reduceP t)
    | .varSkip => .applied self args
    | .noMatch => funcApplyGoF reduceP self args rest

/-- The mutually recursive `apply`/`reduce` pair of `src/types.js`, as
one fuel-indexed engine (first component `apply`, second `reduce`).

`apply(recv, args)`: any argument that provably does not halt poisons the
application to `NEVER`; `NEVER` receivers give `NEVER`; symbols,
primitives and (un)resolved variables defer as an `AppliedType`; unions
apply memberwise; applied types stack; functions dispatch to their
mappings. `FunctionPattern` has no `apply` method in the source (calling
it would crash); that unreachable case is a distinguished error marker
here, as is fuel exhaustion, which no run below ever reaches.

`reduce(type)`: unions reduce members and flatten one nesting level;
applied types reduce arguments, then the receiver, then re-apply;
functions reduce each mapping's result type; everything else reduces to
itself. -/
def tyEngine : Nat → (Ty → List Ty → Ty) × (Ty → Ty)
  | 0 => (fun _ _ => .error "fuel", fun _ => .error "fuel")
  | fuel + 1 =>
    ( fun recv args =>
        if (args.map doesHaltT).any (· == some false) then .never
        else match recv with
          | .never => .never
          | .null => .applied .null args
          | .bool => .applied .bool args
          | .number => .applied .number args
          | .string => .applied .string args
          | .arrayC => .applied .arrayC args
          | .prim name => .applied (.prim name) args
          | .tvar i => .applied (.tvar i) args
          | .unres i => .applied (.unres i) args
          | .union members => unionOf (members.map fun m => (tyEngine fuel).1 m args)
          | .applied r as => .applied (.applied r as) args
          | .func mappings =>
            funcApplyGoF (tyEngine fuel).2 (.func mappings) args mappings
          | .error tag => .error tag
          | .fnPattern _ _ => .error "unreachable: FunctionPattern has no apply"
          | .rawNum _ => .error "unreachable: raw number has no apply",
      fun t =>
        match t with
        | .union members =>
          unionOf ((members.map (tyEngine fuel).2).flatMap fun x =>
            match x with
            | .union ms => ms
            | other => [other])
        | .applied recv args =>
          let args' := args.map (tyEngine fuel).2
          let recv' := (tyEngine fuel).2 recv
          (tyEngine fuel).1 recv' args'
        | .func mappings =>
          .func (mappings.map fun m =>
            .mk m.bindings m.patterns ((tyEngine fuel).2 m.type))
        | other => other )

/-- The exported `apply(recv, args)`. -/
def applyT (fuel : Nat) (recv : Ty) (args : List Ty) : Ty :=
  (tyEngine fuel).1 recv args

/-- The exported `reduce(type)`. -/
def reduceT (fuel : Nat) (t : Ty) : Ty :=
  (tyEngine fuel).2 t

/-- `resolve(type, unresolved, resolved)` from `src/types.js`: despite its
third parameter it substitutes `NEVER` for the unresolved variable and
reduces. -/
def resolveT (fuel : Nat) (t unresolved _resolved : Ty) : Ty :=
  reduceT fuel (substT unresolved .never t)

/-! ## The standard library types (`src/types.js`, `stdlibTypes`)

`createPolyFn` turns each table row `[p₁, …, pₙ, ret]` into a
`TypeMapping` whose bindings are exactly the row's `TypeVar` patterns.
Type-variable ids below follow the module's evaluation order: the global
`typeVarCounter` starts at 0, `any()` and `withVar` allocate in textual
order, and after `stdlibTypes` is built the counter stands at 83. -/

def polyMapping (args : List Ty) (ret : Ty) : TyMapping :=
  .mk (args.filter isTyVarPattern) args ret

def createPolyFn (rows : List (List Ty × Ty)) : Ty :=
  .func (rows.map fun r => polyMapping r.1 r.2)

/-- `createPrimitiveType('timestamp')`. -/
def Timestamp : Ty := .prim "timestamp"

def binaryMathOp : Ty := createPolyFn
  [([.number, .number], .number), ([.tvar 0, .tvar 1], .null)]

def unaryMathOp : Ty := createPolyFn
  [([.number], .number), ([.tvar 2], .null)]

def mathCmpOp : Ty := createPolyFn [([.tvar 3, .tvar 4], .bool)]

def unaryBoolOp : Ty := createPolyFn [([.tvar 5], .bool)]

def binaryBoolOp : Ty := createPolyFn [([.tvar 6, .tvar 7], .bool)]

def mapType : Ty := createPolyFn
  [([.tvar 8, .string], .string),
   ([.tvar 8, arraySyn (.tvar 9)], arraySyn (.applied (.tvar 8) [.tvar 9])),
   ([.tvar 8, .tvar 9], .applied (.tvar 8) [.tvar 9])]

def flatMapType : Ty := createPolyFn
  [([.tvar 10, .string], .string),
   ([.tvar 10, arraySyn (.tvar 11)], .applied (.tvar 10) [.tvar 11]),
   ([.tvar 10, .tvar 11], arraySyn (.applied (.tvar 10) [.tvar 11]))]

def fold1Type : Ty := createPolyFn
  [([.tvar 12, .string], .applied (.tvar 12) [.string, .string]),
   ([.tvar 12, arraySyn (.tvar 13)], .applied (.tvar 12) [.tvar 13, .tvar 13]),
   ([.tvar 12, .tvar 13], .tvar 12)]

def foldType : Ty := createPolyFn
  [([.tvar 14, .tvar 15, .string], .applied (.tvar 14) [.tvar 15, .string]),
   ([.tvar 14, .tvar 15, arraySyn (.tvar 16)], .applied (.tvar 14) [.tvar 15, .tvar 16]),
   ([.tvar 14, .tvar 15, .tvar 16], .applied (.tvar 14) [.tvar 15, .tvar 16])]

def filterType : Ty := createPolyFn
  [([.tvar 17, arraySyn (.tvar 18)], arraySyn (.tvar 18)),
   ([.tvar 17, .tvar 18], .tvar 18)]

/-- The `stdlibTypes` table, in source order. `contains` stores the raw
JavaScript numbers `0` and `1` as patterns, exactly as the source does. -/
def stdlibTypes : List (String × Ty) :=
  [("+", binaryMathOp), ("-", binaryMathOp), ("*", binaryMathOp),
   ("/", binaryMathOp), ("^", binaryMathOp), ("mod", binaryMathOp),
   ("floor", unaryMathOp), ("ceil", unaryMathOp), ("round", unaryMathOp),
   ("trunc", unaryMathOp), ("sign", unaryMathOp), ("abs", unaryMathOp),
   ("==", createPolyFn [([.tvar 19, .tvar 20], .bool)]),
   ("!=", createPolyFn [([.tvar 21, .tvar 22], .bool)]),
   (">", mathCmpOp), ("<", mathCmpOp), (">=", mathCmpOp), ("<=", mathCmpOp),
   ("and", binaryBoolOp), ("or", binaryBoolOp), ("not", unaryBoolOp),
   ("xor", binaryBoolOp),
   ("++", createPolyFn
     [([arraySyn (.tvar 23), arraySyn (.tvar 24)], arraySyn (unionOf [.tvar 23, .tvar 24])),
      ([.tvar 23, arraySyn (.tvar 24)], arraySyn (unionOf [.tvar 23, .tvar 24])),
      ([arraySyn (.tvar 23), .tvar 24], arraySyn (unionOf [.tvar 23, .tvar 24])),
      ([.tvar 23, .tvar 24], .string)]),
   ("map", mapType), ("flat_map", flatMapType), ("fold", foldType),
   ("fold1", fold1Type), ("filter", filterType),
   ("index", createPolyFn
     [([arraySyn (.tvar 25), .number], unionOf [.null, .tvar 25]),
      ([.string, .number], unionOf [.null, .string]),
      ([.tvar 26, .tvar 27], .null)]),
   ("find_index", createPolyFn
     [([arraySyn (.tvar 28), .tvar 28], unionOf [.null, .number]),
      ([.string, .string], unionOf [.null, .number]),
      ([.tvar 29, .tvar 30], .null)]),
   ("length", createPolyFn
     [([arraySyn (.tvar 31)], .number), ([.string], .number), ([.tvar 32], .null)]),
   ("contains", createPolyFn [([.rawNum 0, .rawNum 1], .bool)]),
   ("sort", createPolyFn
     [([arraySyn (.tvar 33)], arraySyn (.tvar 33)), ([.string], .string),
      ([.tvar 34], .null)]),
   ("sum", createPolyFn [([arraySyn .number], .number), ([.tvar 35], .null)]),
   ("min", createPolyFn [([arraySyn .number], .number), ([.tvar 36], .null)]),
   ("max", createPolyFn [([arraySyn .number], .number), ([.tvar 37], .null)]),
   ("avg", createPolyFn [([arraySyn .number], .number), ([.tvar 38], .null)]),
   ("med", createPolyFn [([arraySyn .number], .number), ([.tvar 39], .null)]),
   ("date_sub", createPolyFn
     [([.string, .string, .string], unionOf [.string, .null]),
      ([.tvar 40, .tvar 41, .tvar 42], .null)]),
   ("date_add", createPolyFn
     [([.string, .string, .number], unionOf [.string, .null]),
      ([.tvar 43, .tvar 44, .tvar 45], .null)]),
   ("date_today", .string),
   ("date_fmt", createPolyFn
     [([.string], unionOf [.string, .null]), ([.tvar 46], .null)]),
   ("date_get", createPolyFn
     [([.string, .string], unionOf [.number, .null]),
      ([.tvar 47, .tvar 48], .null)]),
   ("date_set", createPolyFn
     [([.string, .string, .number], unionOf [.string, .null]),
      ([.tvar 49, .tvar 50, .tvar 51], .null)]),
   ("ts_now", Timestamp), ("tz_utc", .number), ("tz_local", .number),
   ("ts_from_unix", createPolyFn [([.number], Timestamp), ([.tvar 52], .null)]),
   ("ts_to_unix", createPolyFn [([Timestamp], .number), ([.tvar 53], .null)]),
   ("ts_from_date", createPolyFn
     [([.string, .number, .number, .number, .number], unionOf [Timestamp, .null]),
      ([.tvar 54, .tvar 55, .tvar 56, .tvar 57, .tvar 58], .null)]),
   ("ts_to_date", createPolyFn
     [([Timestamp, .number], .string), ([.tvar 59, .tvar 60], .null)]),
   ("ts_parse", createPolyFn
     [([.string], unionOf [Timestamp, .null]), ([.tvar 61], .null)]),
   ("ts_to_string", createPolyFn [([Timestamp], .string), ([.tvar 62], .null)]),
   ("ts_fmt", createPolyFn [([Timestamp], .string), ([.tvar 63], .null)]),
   ("ts_add", createPolyFn
     [([.string, Timestamp, .number], unionOf [Timestamp, .null]),
      ([.tvar 64, .tvar 65, .tvar 66], .null)]),
   ("ts_sub", createPolyFn
     [([.string, Timestamp, Timestamp], unionOf [.number, .null]),
      ([.tvar 67, .tvar 68, .tvar 69], .null)]),
   ("ts_get", createPolyFn
     [([.string, .number, Timestamp], unionOf [.number, .null]),
      ([.tvar 70, .tvar 71, .tvar 72], .null)]),
   ("ts_set", createPolyFn
     [([.string, .number, Timestamp, .number], unionOf [Timestamp, .null]),
      ([.tvar 73, .tvar 74, .tvar 75, .tvar 76], .null)]),
   ("datetime_fmt", createPolyFn [([.number], .string), ([.tvar 77], .null)]),
   ("currency_fmt", createPolyFn
     [([.string, .number], unionOf [.string, .null]),
      ([.tvar 78, .tvar 79], .null)]),
   ("country_fmt", createPolyFn
     [([.string], unionOf [.string, .null]), ([.tvar 80], .null)]),
   ("phone_fmt", createPolyFn
     [([.string], unionOf [.string, .null]), ([.tvar 81], .null)]),
   ("id", createPolyFn [([.tvar 82], .tvar 82)])]

/-! ## The analyzer (`src/analyze.js`)

Definition identifiers are strings or symbols; symbols are modelled by
numeric tags. Analyzer nodes additionally carry a numeric `tag` modelling
JavaScript object identity, which the source uses to key its lock map.
Node shapes that the source would reject as `INVALID_FORMAT` (a `b` node
with a non-boolean `v`, a non-finite number, …) are unrepresentable here,
so those checks are vacuously satisfied. The per-node result cache is not
modelled (it never changes a result for programs, like the ones below,
that analyze each node at most once); the pre-populated cache entries for
the standard library are modelled by the `stdCached` node kind. -/

inductive Id where
  | str (s : String)
  | sym (n : Nat)
deriving DecidableEq, BEq, Repr

/-- A JSON literal inside an `m` node. -/
inductive Jlit where
  | jnull
  | jbool (b : Bool)
  | jnum (q : ℚ)
  | jstr (s : String)
  | jarr (xs : List Jlit)

mutual

inductive ANode where
  | mk (tag : Nat) (kind : ANK)

inductive ANK where
  | u
  | b (v : Bool)
  | n (v : ℚ)
  | s (v : String)
  | m (v : List Jlit)
  | l (v : List Id)
  | c (f : Id) (a : Option (List Id))
  | f (p : List String) (body : List (Id × ANode))
  | w (cases : List (Option Id × Id))
  | fnParam (ty : Ty)
  | stdCached (name : String) (ty : Ty)

end

def ANode.tag : ANode → Nat
  | .mk t _ => t

def ANode.kind : ANode → ANK
  | .mk _ k => k

abbrev ADefs := List (Id × ANode)

/-- Property lookup on a merged definitions object: object spread lets a
later entry shadow an earlier one, so the last binding wins. -/
def lookupA (defs : ADefs) (id : Id) : Option ANode :=
  (defs.reverse.find? (fun p => p.1 == id)).map (·.2)

/-- The error strings of `Errors` in `src/analyze.js`. -/
def errLeadingAt : String := "leading @ in identifier"

def errNotInScope : String := "definition not in scope"

def errUnknownDefType : String := "unknown definition type"

def errInvalidFormat : String := "invalid format"

def errTypeError : String := "type error"

/-- An analysis result: `{valid: true, type, defTypes, stdUsage}` or
`{valid: false, error: {type, path}}`. The `Set`s are modelled as
insertion-ordered duplicate-free lists. -/
inductive ARes where
  | ok (type : Ty) (defTypes : List String) (stdUsage : List String)
  | err (kind : String) (path : List Id)

/-- The mutable analysis context: the lock map (node tag to the lock's
`unresolved` field), the set of unresolved variable ids, the resolve map,
the global `TypeVar` counter and a counter handing out fresh object
identities for parameter nodes. -/
structure AState where
  locks : List (Nat × Option Nat)
  unresolvedIds : List Nat
  resolveMap : List (Nat × Ty)
  tvarCounter : Nat
  tagCounter : Nat

def addUnique (xs : List String) (x : String) : List String :=
  if xs.contains x then xs else xs ++ [x]

def addAllUnique (xs ys : List String) : List String :=
  ys.foldl addUnique xs

mutual

/-- `getInnerArrayType`. The empty array gives a fresh type variable.
The nested-array case maps `getInnerArrayType` over the nested array's
*elements*: a number or boolean element has no `length` and yields a
fresh variable, a string iterates into characters, and a `null` element
makes the `length` access throw (caught by the caller's `try`), modelled
as the `Except` error. -/
def innerArrayType (v : List Jlit) (c : Nat) : Except Unit (Ty × Nat) :=
  if v.length = 0 then .ok (.tvar c, c + 1)
  else
    match innerTopElems v c with
    | .error e => .error e
    | .ok (ts, c') => .ok (unionOf ts, c')

def innerTopElems (v : List Jlit) (c : Nat) : Except Unit (List Ty × Nat) :=
  match v with
  | [] => .ok ([], c)
  | x :: xs =>
    match innerTopElem x c with
    | .error e => .error e
    | .ok (t, c') =>
      match innerTopElems xs c' with
      | .error e => .error e
      | .ok (ts, c'') => .ok (t :: ts, c'')

def innerTopElem (x : Jlit) (c : Nat) : Except Unit (Ty × Nat) :=
  match x with
  | .jnull => .ok (.null, c)
  | .jbool _ => .ok (.bool, c)
  | .jnum _ => .ok (.number, c)
  | .jstr _ => .ok (.string, c)
  | .jarr xs =>
    match innerNestedList xs c with
    | .error e => .error e
    | .ok (ts, c') => .ok (arraySyn (unionOf ts), c')

def innerNestedList (v : List Jlit) (c : Nat) : Except Unit (List Ty × Nat) :=
  match v with
  | [] => .ok ([], c)
  | x :: xs =>
    match innerNested x c with
    | .error e => .error e
    | .ok (t, c') =>
      match innerNestedList xs c' with
      | .error e => .error e
      | .ok (ts, c'') => .ok (t :: ts, c'')

/-- `getInnerArrayType` applied to a single nested element. -/
def innerNested (x : Jlit) (c : Nat) : Except Unit (Ty × Nat) :=
  match x with
  | .jarr v => innerArrayType v c
  | .jstr s =>
    if s.length = 0 then .ok (.tvar c, c + 1)
    else .ok (.string, c)
  | .jnull => .error ()
  | _ => .ok (.tvar c, c + 1)

end

/-- `startsWith` with a single-character prefix, written over the
character list so that it evaluates by kernel reduction. -/
def strStartsWith (s : String) (c : Char) : Bool :=
  match s.toList with
  | x :: _ => x == c
  | [] => false

/-- The `allowedParentScopeDefs` construction of the `f` branch: `for…in`
enumerates only string keys (symbol-keyed definitions are silently
dropped, making the `typeof n === 'symbol'` test dead code), and
string keys starting with `_` are filtered out. -/
def allowedParentScopeDefs (defs : ADefs) : ADefs :=
  defs.filter fun p =>
    match p.1 with
    | .str n => !strStartsWith n '_'
    | .sym _ => false

/-- Allocate the parameter scope of an `f` node: one fresh type variable
per parameter and one fresh node identity per parameter entry. -/
def allocParams (ps : List String) (st : AState) : List Ty × ADefs × AState :=
  match ps with
  | [] => ([], [], st)
  | p :: rest =>
    let pv : Ty := .tvar st.tvarCounter
    let node : ANode := .mk st.tagCounter (.fnParam pv)
    let st' := { st with tvarCounter := st.tvarCounter + 1, tagCounter := st.tagCounter + 1 }
    let (pvs, defs, st'') := allocParams rest st'
    (pv :: pvs, (Id.str p, node) :: defs, st'')

def isAtId : Id → Bool
  | .str s => strStartsWith s '@'
  | .sym _ => false

/-- The type of the recursive analysis entry point, abstracted over by
the loop helpers. -/
abbrev AnaFun := ADefs → Id → List Id → AState → ARes × AState

/-- Analyze a list of referenced ids (the `l` elements or a call's
arguments), accumulating types, `defTypes` and `stdUsage`. -/
def analyzeRefListF (ana : AnaFun) (defs : ADefs) (path : List Id) :
    List Id → AState → (List Ty × List String × List String ⊕ ARes) × AState
  | [], st => (.inl ([], [], []), st)
  | ref :: rest, st =>
    let (res, st') := ana defs ref path st
    match res with
    | .err e p => (.inr (.err e p), st')
    | .ok ty dts su =>
      let (restRes, st'') := analyzeRefListF ana defs path rest st'
      match restRes with
      | .inr e => (.inr e, st'')
      | .inl (tys, dts', su') =>
        (.inl (ty :: tys, addAllUnique dts dts', addAllUnique su su'), st'')

/-- Analyze the cases of a `w` node: conditions (when present) are
analyzed for validity only; the case bodies' types are collected. -/
def analyzeCasesF (ana : AnaFun) (defs : ADefs) (path : List Id) :
    List (Option Id × Id) → AState →
    (List Ty × List String × List String ⊕ ARes) × AState
  | [], st => (.inl ([], [], []), st)
  | (cond, val) :: rest, st =>
    let (condRes, st') :=
      match cond with
      | some cid =>
        let (r, s) := ana defs cid path st
        (some r, s)
      | none => (none, st)
    match condRes with
    | some (.err e p) => (.inr (.err e p), st')
    | _ =>
      let (valRes, st'') := ana defs val path st'
      match valRes with
      | .err e p => (.inr (.err e p), st'')
      | .ok ty _ _ =>
        let (restRes, st''') := analyzeCasesF ana defs path rest st''
        match restRes with
        | .inr e => (.inr e, st''')
        | .inl (tys, dts, su) => (.inl (ty :: tys, dts, su), st''')

/-- The per-tag analysis of an unlocked node (the `item.t` dispatch of
`analyzeScoped`), with the recursive analysis call and the type-algebra
fuel passed in. -/
def analyzeKindF (ana : AnaFun) (tfuel : Nat) (defs : ADefs) (id : Id)
    (path : List Id) (st : AState) (k : ANK) : ARes × AState :=
  match k with
  | .u => (.ok .null ["u"] [], st)
  | .b _ => (.ok .bool ["b"] [], st)
  | .n _ => (.ok .number ["n"] [], st)
  | .s _ => (.ok .string ["s"] [], st)
  | .m v =>
    match innerArrayType v st.tvarCounter with
    | .error _ => (.err errInvalidFormat (path ++ [id]), st)
    | .ok (inner, c') =>
      (.ok (applyT tfuel .arrayC [inner]) ["m"] [], { st with tvarCounter := c' })
  | .l v =>
    let (res, st') := analyzeRefListF ana defs path v st
    match res with
    | .inr e => (e, st')
    | .inl (refTypes, defTypes, stdUsage) =>
      (.ok (applyT tfuel .arrayC [unionOf refTypes]) (addUnique defTypes "l")
        stdUsage, st')
  | .c fId args =>
    let (fnRes, st') := ana defs fId path st
    match fnRes with
    | .err e p => (.err e p, st')
    | .ok fnType fnDefTypes fnStdUsage =>
      let (res, st'') := analyzeRefListF ana defs path (args.getD []) st'
      match res with
      | .inr e => (e, st'')
      | .inl (argTypes, argDefTypes, argStdUsage) =>
        (.ok (applyT tfuel fnType argTypes)
          (addAllUnique (addAllUnique ["c"] fnDefTypes) argDefTypes)
          (addAllUnique fnStdUsage argStdUsage), st'')
  | .f ps body =>
    let (pvs, paramDefs, st') := allocParams ps st
    let childDefs := allowedParentScopeDefs defs ++ paramDefs ++ body
    let (retRes, st'') := ana childDefs (.str "=") (path ++ [id]) st'
    match retRes with
    | .err e p => (.err e p, st'')
    | .ok retType retDefTypes retStdUsage =>
      (.ok (.func [.mk pvs pvs retType]) (addAllUnique ["f"] retDefTypes)
        retStdUsage, st'')
  | .w cases =>
    let (res, st') := analyzeCasesF ana defs path cases st
    match res with
    | .inr e => (e, st')
    | .inl (caseTypes, defTypes, stdUsage) =>
      -- note: the source never adds 'w' to defTypes
      (.ok (unionOf caseTypes) defTypes stdUsage, st')
  | .fnParam ty => (.ok ty [] [], st)
  | .stdCached _ ty => (.ok ty [] [], st)

/-- `analyzeScoped(definitions, id, context)` from `src/analyze.js`,
with the context's mutable parts threaded explicitly and the read-only
`path` passed separately. -/
def analyzeScopedT (fuel0 : Nat) (defs0 : ADefs) (id0 : Id) (path0 : List Id)
    (fv : String → Option Ty) (st0 : AState) : ARes × AState :=
  match fuel0, defs0, id0, path0, st0 with
  | 0, _, _, path, st => (.err "fuel" path, st)
  | fuel + 1, defs, id, path, st =>
    -- form variables: a provided type returns immediately
    let fvHit : Option Ty :=
      match id with
      | .str s => if strStartsWith s '@' then fv (s.drop 1) else none
      | .sym _ => none
    match fvHit with
    | some ty => (.ok ty [] [], st)
    | none =>
      match lookupA defs id with
      | none => (.err errNotInScope (path ++ [id]), st)
      | some item =>
        if isAtId id then (.err errLeadingAt (path ++ [id]), st)
        else
          match item.kind with
          | .stdCached name ty =>
            -- the pre-populated cache entry for a stdlib name
            (.ok ty [] [name], st)
          | k =>
            match st.locks.find? (fun p => p.1 == item.tag) with
            | some (_, lockUnres) =>
              -- recursion: hand out (and remember) an unresolved type
              match lockUnres with
              | some uid => (.ok (.unres uid) [] [], st)
              | none =>
                let uid := st.tvarCounter
                let st' := { st with
                  tvarCounter := st.tvarCounter + 1,
                  unresolvedIds := st.unresolvedIds ++ [uid],
                  locks := st.locks.map fun p =>
                    if p.1 == item.tag then (p.1, some uid) else p }
                (.ok (.unres uid) [] [], st')
            | none =>
              let st := { st with locks := st.locks ++ [(item.tag, none)] }
              let (res, st') :=
                analyzeKindF (fun d i pa s => analyzeScopedT fuel d i pa fv s)
                  fuel defs id path st k
              match res with
              | .err e p => (.err e p, st')
              | .ok type defTypes stdUsage =>
                if !isValidT type then (.err errTypeError (path ++ [id]), st')
                else
                  let rtype := reduceT fuel type
                  let lockEntry := st'.locks.find? (fun p => p.1 == item.tag)
                  let st'' := { st' with
                    resolveMap :=
                      match lockEntry with
                      | some (_, some uid) => st'.resolveMap ++ [(uid, rtype)]
                      | _ => st'.resolveMap,
                    locks := st'.locks.filter (fun p => p.1 != item.tag) }
                  (.ok rtype defTypes stdUsage, st'')
termination_by structural fuel0

/-- `buildContext`: one pre-cached (empty-object) definition per stdlib
type. Node tags from 1000000 model the identities of those objects
(user programs below use small tags; fresh parameter nodes use tags from
2000000). -/
def stdDefsA : ADefs :=
  (stdlibTypes.enum).map fun p =>
    (Id.str p.2.1, ANode.mk (1000000 + p.1) (.stdCached p.2.1 p.2.2))

/-- The number of type variables allocated while `src/types.js`
initializes: the analyzer's fresh variables continue after them. -/
def tvarCounterAfterStdlib : Nat := 83

/-- `analyze(definitions, id, formValues)`: layer the stdlib defs under
the user definitions, analyze, then resolve every unresolved type
through the resolve map. -/
def analyzeT (fuel : Nat) (definitions : ADefs) (id : Id)
    (fv : String → Option Ty) : ARes :=
  let defs := stdDefsA ++ definitions
  let st0 : AState := ⟨[], [], [], tvarCounterAfterStdlib, 2000000⟩
  let (item, st) := analyzeScopedT fuel defs id [] fv st0
  match item with
  | .ok ty dts su =>
    .ok (st.resolveMap.foldl (fun t p => resolveT fuel t (.unres p.1) p.2) ty) dts su
  | e => e

/-! ## Dates (`src/stdlib.js`)

`parseDateString` accepts exactly `/^\d{4}-\d{2}-\d{2}$/` and builds a
`Date` at UTC midnight. The model assumes a UTC host environment (as the
repository's tests do), so the local-time accessors used by `subMonths`
agree with the parsed calendar fields. A regex-matching string with an
out-of-range month or day produces an Invalid Date in JavaScript, whose
arithmetic is NaN; that unreachable-for-the-claims case is modelled by a
distinguished marker. -/

/-- A calendar date; `month` is 0-based like JavaScript's `getMonth`. -/
structure Ymd where
  year : Int
  month : Int
  day : Int
deriving DecidableEq

def isLeapYear (y : Int) : Bool :=
  (y % 4 == 0 && y % 100 != 0) || y % 400 == 0

/-- `daysInMonth(year, month)` = `new Date(year, month + 1, 0).getDate()`
with a 0-based month index (normalizing an out-of-range index the way the
`Date` constructor does). -/
def daysInMonth0 (y m : Int) : Int :=
  let y' := y + m.fdiv 12
  let m' := m.fmod 12
  if m' = 1 then (if isLeapYear y' then 29 else 28)
  else if m' = 3 ∨ m' = 5 ∨ m' = 8 ∨ m' = 10 then 30
  else 31

/-- `d.setMonth(n)`: the year absorbs whole multiples of 12, and a
day-of-month past the end of the target month rolls into the following
month (at most one roll, since a day never exceeds 31). -/
def setMonth (d : Ymd) (n : Int) : Ymd :=
  let y := d.year + n.fdiv 12
  let m := n.fmod 12
  let dim := daysInMonth0 y m
  if d.day ≤ dim then ⟨y, m, d.day⟩
  else
    let m' := m + 1
    ⟨y + m'.fdiv 12, m'.fmod 12, d.day - dim⟩

/-- Timestamp comparison of two (UTC-midnight) dates. -/
def ymdLt (a b : Ymd) : Bool :=
  a.year < b.year ∨ (a.year = b.year ∧
    (a.month < b.month ∨ (a.month = b.month ∧ a.day < b.day)))

/-- Days since the Unix epoch of a civil date (1-based month), used for
the millisecond arithmetic of the `weeks`/`days` units. -/
def daysFromCivil (y m d : Int) : Int :=
  let y' := if m ≤ 2 then y - 1 else y
  let era := y'.fdiv 400
  let yoe := y' - era * 400
  let mp := if m > 2 then m - 3 else m + 9
  let doy := (153 * mp + 2).fdiv 5 + d - 1
  let doe := yoe * 365 + yoe.fdiv 4 - yoe.fdiv 100 + doy
  era * 146097 + doe - 719468

def Ymd.epochDays (d : Ymd) : Int :=
  daysFromCivil d.year (d.month + 1) d.day

/-- `subMonths(a, b)`: whole-month difference plus the residual day
difference normalized by the day count of the *first* argument's month. -/
def subMonths (a b : Ymd) : ℚ :=
  let delta : Int := (a.year - b.year) * 12 + (a.month - b.month)
  let offsetB := setMonth b (b.month + delta)
  let totalDays := daysInMonth0 a.year a.month
  if ymdLt offsetB a then
    (delta : ℚ) + ((a.day - offsetB.day : Int) : ℚ) / (totalDays : ℚ)
  else
    (delta : ℚ) - ((offsetB.day - a.day : Int) : ℚ) / (totalDays : ℚ)

def digitVal (c : Char) : Int := (c.toNat : Int) - 48

/-- `parseDateString`: `none` when the regex does not match (JavaScript
`null`); `some none` when it matches but `new Date` yields an Invalid
Date; `some (some d)` for a valid calendar date. -/
def parseDateString (s : String) : Option (Option Ymd) :=
  match s.toList with
  | [y1, y2, y3, y4, h1, m1, m2, h2, d1, d2] =>
    if ([y1, y2, y3, y4, m1, m2, d1, d2].all Char.isDigit) && h1 = '-' && h2 = '-' then
      let yv := 1000 * digitVal y1 + 100 * digitVal y2 + 10 * digitVal y3 + digitVal y4
      let mv := 10 * digitVal m1 + digitVal m2
      let dv := 10 * digitVal d1 + digitVal d2
      if 1 ≤ mv ∧ mv ≤ 12 ∧ 1 ≤ dv ∧ dv ≤ daysInMonth0 yv (mv - 1) then
        some (some ⟨yv, mv - 1, dv⟩)
      else some none
    else none
  | _ => none

/-! ## The evaluator (`src/eval.js`, `src/vmfun.js`, `src/stdlib.js`)

Values are the evaluator's value domain; `closure` is a `VMFun` wrapping
a user `f` node (capturing the definition stack up to and including the
layer where the node was found), and `native` is an `NVMFun` wrapping a
stdlib host function, identified by name with its declared parameter
count. JavaScript `Date` values (produced only by the unexercised `ts_*`
natives) are not modelled. The per-scope caches only memoize pure
computations and are omitted; the `shouldHalt` predicate is modelled as
the default always-false one. -/

mutual

inductive Node where
  | u
  | b (v : Bool)
  | n (v : ℚ)
  | s (v : String)
  | m (v : List Jlit)
  | l (v : List Id)
  | c (f : Id) (a : Option (List Id))
  | f (p : List String) (body : List (Id × Node))
  | w (cases : List (Option Id × Id))
  | fnParam (v : Value)
  | native (name : String) (arity : Nat)

inductive Value where
  | null
  | bool (b : Bool)
  | num (q : ℚ)
  | str (s : String)
  | arr (items : List Value)
  | closure (defStack : List (List (Id × Node))) (params : List String)
      (body : List (Id × Node))
  | native (name : String) (arity : Nat)

end

abbrev Layer := List (Id × Node)

inductive EvalErr where
  | unknownDef (id : Id)
  | arityMismatch (expected got : Nat)
  | notCallable
  | unmodelled (name : String)
  | invalidDateArith
  | fuelExhausted
deriving DecidableEq

def jlitToValue : Jlit → Value
  | .jnull => .null
  | .jbool b => .bool b
  | .jnum q => .num q
  | .jstr s => .str s
  | .jarr xs => .arr (jlitListToValue xs)
where jlitListToValue : List Jlit → List Value
  | [] => []
  | x :: xs => jlitToValue x :: jlitListToValue xs

def lookupLayer (layer : Layer) (id : Id) : Option Node :=
  (layer.reverse.find? (fun p => p.1 == id)).map (·.2)

/-- Resolve an identifier in the definition stack, preferring later
items, and remember the index where it was found. -/
def resolveInStack (stack : List Layer) (id : Id) : Nat → Option (Node × Nat)
  | 0 => (lookupLayer (stack.getD 0 []) id).map ((·, 0))
  | i + 1 =>
    match (stack.getD (i + 1) []).reverse.find? (fun p => p.1 == id) with
    | some p => some (p.2, i + 1)
    | none => resolveInStack stack id i

/-- A value is a `VMFun` (callable) when it is a user closure or a stdlib
native. -/
def isVMFun : Value → Bool
  | .closure _ _ _ => true
  | .native _ _ => true
  | _ => false

def vmArity : Value → Nat
  | .closure _ ps _ => ps.length
  | .native _ ar => ar
  | _ => 0

/-- JavaScript `%` (remainder, truncating toward zero) on rationals. -/
def qRem (a b : ℚ) : ℚ :=
  let t : Int := if a / b ≥ 0 then ⌊a / b⌋ else ⌈a / b⌉
  a - b * t

def qSign (a : ℚ) : ℚ := if a > 0 then 1 else if a < 0 then -1 else 0

/-- `defBinMath`: a zero (`null`) result for non-number arguments. -/
def defBinMathV (op : ℚ → ℚ → ℚ) : List Value → Value
  | [.num x, .num y] => .num (op x y)
  | _ => .null

def defUnMathV (op : ℚ → ℚ) : List Value → Value
  | [.num x] => .num (op x)
  | _ => .null

/-- `defCmp`: lexicographic on strings, numeric on numbers, `false` on
type mismatch. -/
def defCmpV (f : ℚ → Bool) : List Value → Value
  | [.str x, .str y] => .bool (f (if x < y then -1 else if y < x then 1 else 0))
  | [.num x, .num y] => .bool (f (x - y))
  | _ => .bool false

def defBinBinV (op : Bool → Bool → Bool) : List Value → Value
  | [.bool x, .bool y] => .bool (op x y)
  | _ => .bool false

/-- `date_sub(t, a, b)` on already-parsed, valid dates. -/
def dateSubUnits (unit : String) (da db : Ymd) : ℚ :=
  if unit = "years" then subMonths da db / 12
  else if unit = "months" then subMonths da db
  else if unit = "weeks" then
    ((da.epochDays - db.epochDays) * 86400000 : Int) / (1000 * 86400 * 7 : ℚ)
  else
    ((da.epochDays - db.epochDays) * 86400000 : Int) / (1000 * 86400 : ℚ)

/-- Evaluate a list of referenced ids with the given evaluation
function, left to right, propagating the first failure. -/
def evalArgsF (ev : Id → Except EvalErr Value) : List Id → Except EvalErr (List Value)
  | [] => .ok []
  | i :: rest =>
    match ev i with
    | .error e => .error e
    | .ok v =>
      match evalArgsF ev rest with
      | .error e => .error e
      | .ok vs => .ok (v :: vs)

/-- The case loop of the `w` branch: an absent condition counts as true;
a present condition is evaluated and compared against strict `true`; the
first selected case's value is evaluated and returned; otherwise `null`. -/
def evalCasesF (ev : Id → Except EvalErr Value) :
    List (Option Id × Id) → Except EvalErr Value
  | [] => .ok .null
  | (cond, val) :: rest =>
    match cond with
    | none => ev val
    | some cid =>
      match ev cid with
      | .error e => .error e
      | .ok (.bool true) => ev val
      | .ok _ => evalCasesF ev rest

/-- `mapify(f)(v)` with the given application function: call `f` when it
is callable, otherwise return `f` itself (the constant function). -/
def applyMapifyF (appV : Value → List Value → Except EvalErr Value)
    (f v : Value) : Except EvalErr Value :=
  if isVMFun f then appV f [v] else .ok f

def mapDfF (df : Value → Except EvalErr Value) : List Value → Except EvalErr (List Value)
  | [] => .ok []
  | v :: vs =>
    match df v with
    | .error e => .error e
    | .ok r =>
      match mapDfF df vs with
      | .error e => .error e
      | .ok rs => .ok (r :: rs)

def filterDfF (df : Value → Except EvalErr Value) :
    List Value → Except EvalErr (List Value)
  | [] => .ok []
  | v :: vs =>
    match df v with
    | .error e => .error e
    | .ok r =>
      match filterDfF df vs with
      | .error e => .error e
      | .ok rs => .ok (match r with | .bool true => v :: rs | _ => rs)

/-- The bodies of the stdlib natives exercised by the claims (`+`, the
other simple arithmetic, comparison and boolean operators, `id`, `map`,
`filter`, `date_sub`), with the value-application function of the
enclosing fuel level passed in. The remaining natives are never applied
by any theorem in this file; applying one yields the explicit
`unmodelled` marker rather than a fabricated value. -/
def applyNativeF (appV : Value → List Value → Except EvalErr Value)
    (name : String) (args : List Value) : Except EvalErr Value :=
  if name = "+" then .ok (defBinMathV (· + ·) args)
  else if name = "-" then .ok (defBinMathV (· - ·) args)
  else if name = "*" then .ok (defBinMathV (· * ·) args)
  else if name = "/" then .ok (defBinMathV (fun a b => if b = 0 then 0 else a / b) args)
  else if name = "mod" then
    .ok (defBinMathV (fun a b =>
      if b = 0 then 0
      else
        let pa := qSign b * a
        let pb := |b|
        qRem (qRem pa pb + pb) pb) args)
  else if name = "floor" then .ok (defUnMathV (fun q => (⌊q⌋ : ℚ)) args)
  else if name = "ceil" then .ok (defUnMathV (fun q => (⌈q⌉ : ℚ)) args)
  else if name = "round" then .ok (defUnMathV (fun q => (⌊q + 1/2⌋ : ℚ)) args)
  else if name = "trunc" then
    .ok (defUnMathV (fun q => ((if q ≥ 0 then ⌊q⌋ else ⌈q⌉) : ℚ)) args)
  else if name = "sign" then .ok (defUnMathV qSign args)
  else if name = "abs" then .ok (defUnMathV (|·|) args)
  else if name = ">" then .ok (defCmpV (· > 0) args)
  else if name = "<" then .ok (defCmpV (· < 0) args)
  else if name = ">=" then .ok (defCmpV (· ≥ 0) args)
  else if name = "<=" then .ok (defCmpV (· ≤ 0) args)
  else if name = "and" then .ok (defBinBinV (· && ·) args)
  else if name = "or" then .ok (defBinBinV (· || ·) args)
  else if name = "not" then
    .ok (match args with | [.bool x] => .bool (!x) | _ => .bool false)
  else if name = "xor" then .ok (defBinBinV (· != ·) args)
  else if name = "id" then .ok (args.getD 0 .null)
  else if name = "map" then
    match args with
    | [f, a] =>
      match a with
      | .null => .ok .null
      | .str s =>
        if s.length = 0 then .ok (.str s)
        else
          match mapDfF (applyMapifyF appV f)
              (s.toList.map (fun ch => Value.str (String.singleton ch))) with
          | .error e => .error e
          | .ok rs => .ok (.arr rs)
      | .arr items =>
        if items.length = 0 then .ok (.arr items)
        else
          match mapDfF (applyMapifyF appV f) items with
          | .error e => .error e
          | .ok rs => .ok (.arr rs)
      | other => applyMapifyF appV f other
    | _ => .error (.unmodelled "map")
  else if name = "filter" then
    match args with
    | [f, a] =>
      match a with
      | .str s =>
        if s.length = 0 then .ok (.str s)
        else
          match filterDfF (applyMapifyF appV f)
              (s.toList.map (fun ch => Value.str (String.singleton ch))) with
          | .error e => .error e
          | .ok kept =>
            -- the kept items of a string input are single-character strings
            .ok (.str (String.join (kept.map fun v =>
              match v with | .str cs => cs | _ => "")))
      | .arr items =>
        if items.length = 0 then .ok (.arr items)
        else
          match filterDfF (applyMapifyF appV f) items with
          | .error e => .error e
          | .ok kept => .ok (.arr kept)
      | _ => .ok .null
    | _ => .error (.unmodelled "filter")
  else if name = "date_sub" then
    match args with
    | [t, a, b] =>
      match t with
      | .str unit =>
        if unit ≠ "years" ∧ unit ≠ "months" ∧ unit ≠ "weeks" ∧ unit ≠ "days" then
          .ok .null
        else
          let pa := match a with | .str s => parseDateString s | _ => none
          let pb := match b with | .str s => parseDateString s | _ => none
          match pa, pb with
          | some (some da), some (some db) => .ok (.num (dateSubUnits unit da db))
          | some none, some _ => .error .invalidDateArith
          | some _, some none => .error .invalidDateArith
          | _, _ => .ok .null
      | _ => .ok .null
    | _ => .error (.unmodelled "date_sub")
  else .error (.unmodelled name)

/-- The mutually recursive triple of `src/eval.js` and `src/vmfun.js` as
one fuel-indexed engine: `evaluateScoped` (first component),
`VMFun.apply`/`NVMFun.apply` (second) and the stdlib native dispatch
(third). A user closure's application pushes a parameter layer and its
body layer onto the captured stack and evaluates `=` there. Fuel
exhaustion yields a marker no run below ever reaches. -/
def evalEngine (gfv : String → Value) (fuel0 : Nat) :
    (List Layer → Nat → Id → Except EvalErr Value) ×
      (Value → List Value → Except EvalErr Value) ×
      (String → List Value → Except EvalErr Value) :=
  match fuel0 with
  | 0 => (fun _ _ _ => .error .fuelExhausted, fun _ _ => .error .fuelExhausted,
      fun _ _ => .error .fuelExhausted)
  | fuel + 1 =>
    ( fun stack index id =>
        if isAtId id then
          match id with
          | .str s => .ok (gfv (s.drop 1))
          | .sym _ => .ok .null
        else
          match resolveInStack stack id index with
          | none => .error (.unknownDef id)
          | some (item, itemIndex) =>
            match item with
            | .c fId args =>
              match (evalEngine gfv fuel).1 stack itemIndex fId with
              | .error e => .error e
              | .ok callee =>
                let argIds := args.getD []
                if isVMFun callee then
                  let expected := vmArity callee
                  if argIds.length ≠ expected then
                    .error (.arityMismatch expected argIds.length)
                  else
                    match evalArgsF ((evalEngine gfv fuel).1 stack itemIndex) argIds with
                    | .error e => .error e
                    | .ok argVals => (evalEngine gfv fuel).2.1 callee argVals
                else
                  if argIds.length ≠ 0 then .error (.arityMismatch 0 argIds.length)
                  else .ok callee
            | .f ps body => .ok (.closure (stack.take (itemIndex + 1)) ps body)
            | .l v =>
              match evalArgsF ((evalEngine gfv fuel).1 stack itemIndex) v with
              | .error e => .error e
              | .ok vs => .ok (.arr vs)
            | .w cases => evalCasesF ((evalEngine gfv fuel).1 stack itemIndex) cases
            | .n q => .ok (.num q)
            | .m v => .ok (.arr (v.map jlitToValue))
            | .s s => .ok (.str s)
            | .b b => .ok (.bool b)
            | .u => .ok .null
            | .fnParam v => .ok v
            | .native name ar => .ok (.native name ar),
      fun callee args =>
        match callee with
        | .closure ds ps body =>
          if args.length ≠ ps.length then .error (.arityMismatch ps.length args.length)
          else
            let paramLayer : Layer :=
              List.zipWith (fun p v => (Id.str p, Node.fnParam v)) ps args
            let fnStack := ds ++ [paramLayer, body]
            (evalEngine gfv fuel).1 fnStack (fnStack.length - 1) (.str "=")
        | .native name ar =>
          if args.length ≠ ar then .error (.arityMismatch ar args.length)
          else applyNativeF (evalEngine gfv fuel).2.1 name args
        | _ => .error .notCallable,
      fun name args => applyNativeF (evalEngine gfv fuel).2.1 name args )
termination_by structural fuel0

/-- `evaluateScoped(definitions, index, id, context)` from `src/eval.js`. -/
def evaluateScopedT (fuel : Nat) (stack : List Layer) (index : Nat) (id : Id)
    (gfv : String → Value) : Except EvalErr Value :=
  (evalEngine gfv fuel).1 stack index id

/-- `VMFun.apply` / `NVMFun.apply`: arity-checked application of a
callable. -/
def applyValueT (fuel : Nat) (callee : Value) (args : List Value)
    (gfv : String → Value) : Except EvalErr Value :=
  (evalEngine gfv fuel).2.1 callee args

/-- Application of a stdlib native by name. -/
def applyNativeT (fuel : Nat) (name : String) (args : List Value)
    (gfv : String → Value) : Except EvalErr Value :=
  (evalEngine gfv fuel).2.2 name args

/-! ## The standard library layer (`src/stdlib.js`)

`nvmify` wraps each function entry in an `NVMFun` (modelled as
`Node.native name arity`, with the function's declared parameter count);
non-function entries stay as plain nodes: `tz_utc` is a number node and
`date_today` is a getter producing a string node holding the current date
(environment-dependent, so the layer is parameterized by it). The
`extras` entries are ordinary definition nodes. Entries appear in source
order. -/

/-- The `extras.sum` node: `sum a = fold (+) 0 a`. -/
def sumNode : Node :=
  .f ["a"] [(.str "_0", .n 0),
    (.str "=", .c (.str "fold") (some [.str "+", .str "_0", .str "a"]))]

/-- The `extras.min` node: `min a = fold1 (\a b -> if (a < b) a b) a`. -/
def minNode : Node :=
  .f ["a"] [
    (.str "m", .f ["a", "b"] [
      (.str "c", .c (.str "<") (some [.str "a", .str "b"])),
      (.str "=", .w [(some (.str "c"), .str "a"), (none, .str "b")])]),
    (.str "=", .c (.str "fold1") (some [.str "m", .str "a"]))]

/-- The `extras.max` node: `max a = fold1 (\a b -> if (a > b) a b) a`. -/
def maxNode : Node :=
  .f ["a"] [
    (.str "m", .f ["a", "b"] [
      (.str "c", .c (.str ">") (some [.str "a", .str "b"])),
      (.str "=", .w [(some (.str "c"), .str "a"), (none, .str "b")])]),
    (.str "=", .c (.str "fold1") (some [.str "m", .str "a"]))]

/-- The `extras.avg` node: `avg a = (sum a) / (length a)`. -/
def avgNode : Node :=
  .f ["a"] [
    (.str "s", .c (.str "sum") (some [.str "a"])),
    (.str "l", .c (.str "length") (some [.str "a"])),
    (.str "=", .c (.str "/") (some [.str "s", .str "l"]))]

/-- The `extras.med` node (median). -/
def medNode : Node :=
  .f ["a"] [
    (.str "_0", .n 0),
    (.str "_1", .n 1),
    (.str "_2", .n 2),
    (.str "=", .w [(some (.str "_ismod2"), .str "_ifmod2"), (none, .str "_else")]),
    (.str "_l", .c (.str "length") (some [.str "a"])),
    (.str "_b", .c (.str "sort") (some [.str "a"])),
    (.str "_ismod2", .c (.str "==") (some [.str "_lmod2", .str "_0"])),
    (.str "_lmod2", .c (.str "mod") (some [.str "_l", .str "_2"])),
    (.str "_indexb", .c (.str "index") (some [.str "_b"])),
    (.str "_ifmod2", .c (.str "avg") (some [.str "_avgmap"])),
    (.str "_avgmap", .c (.str "map") (some [.str "_indexb", .str "_avglist"])),
    (.str "_avglist", .l [.str "_l/2-1", .str "_l/2"]),
    (.str "_l/2", .c (.str "/") (some [.str "_l", .str "_2"])),
    (.str "_l/2-1", .c (.str "-") (some [.str "_l/2", .str "_1"])),
    (.str "_else", .c (.str "_indexb") (some [.str "_fl/2"])),
    (.str "_fl/2", .c (.str "floor") (some [.str "_l/2"]))]

def stdlibLayer (today : String) : Layer :=
  [(Id.str "+", Node.native "+" 2), (Id.str "-", Node.native "-" 2),
   (Id.str "*", Node.native "*" 2), (Id.str "/", Node.native "/" 2),
   (Id.str "^", Node.native "^" 2), (Id.str "mod", Node.native "mod" 2),
   (Id.str "floor", Node.native "floor" 1), (Id.str "ceil", Node.native "ceil" 1),
   (Id.str "round", Node.native "round" 1), (Id.str "trunc", Node.native "trunc" 1),
   (Id.str "sign", Node.native "sign" 1), (Id.str "abs", Node.native "abs" 1),
   (Id.str "==", Node.native "==" 2), (Id.str "!=", Node.native "!=" 2),
   (Id.str ">", Node.native ">" 2), (Id.str "<", Node.native "<" 2),
   (Id.str ">=", Node.native ">=" 2), (Id.str "<=", Node.native "<=" 2),
   (Id.str "and", Node.native "and" 2), (Id.str "or", Node.native "or" 2),
   (Id.str "not", Node.native "not" 1), (Id.str "xor", Node.native "xor" 2),
   (Id.str "++", Node.native "++" 2),
   (Id.str "map", Node.native "map" 2), (Id.str "flat_map", Node.native "flat_map" 2),
   (Id.str "fold", Node.native "fold" 3), (Id.str "fold1", Node.native "fold1" 2),
   (Id.str "filter", Node.native "filter" 2),
   (Id.str "index", Node.native "index" 2), (Id.str "find_index", Node.native "find_index" 2),
   (Id.str "length", Node.native "length" 1), (Id.str "contains", Node.native "contains" 2),
   (Id.str "head", Node.native "head" 2), (Id.str "tail", Node.native "tail" 2),
   (Id.str "sort", Node.native "sort" 1),
   (Id.str "date_sub", Node.native "date_sub" 3), (Id.str "date_add", Node.native "date_add" 3),
   (Id.str "date_get", Node.native "date_get" 2), (Id.str "date_set", Node.native "date_set" 3),
   (Id.str "date_today", Node.s today),
   (Id.str "date_fmt", Node.native "date_fmt" 1),
   (Id.str "ts_now", Node.native "ts_now" 0),
   (Id.str "tz_utc", Node.n 0),
   (Id.str "tz_local", Node.native "tz_local" 0),
   (Id.str "ts_from_unix", Node.native "ts_from_unix" 1),
   (Id.str "ts_to_unix", Node.native "ts_to_unix" 1),
   (Id.str "ts_from_date", Node.native "ts_from_date" 5),
   (Id.str "ts_to_date", Node.native "ts_to_date" 2),
   (Id.str "ts_parse", Node.native "ts_parse" 1),
   (Id.str "ts_to_string", Node.native "ts_to_string" 1),
   (Id.str "ts_fmt", Node.native "ts_fmt" 1),
   (Id.str "ts_add", Node.native "ts_add" 3), (Id.str "ts_sub", Node.native "ts_sub" 3),
   (Id.str "ts_get", Node.native "ts_get" 3), (Id.str "ts_set", Node.native "ts_set" 4),
   (Id.str "currency_fmt", Node.native "currency_fmt" 2),
   (Id.str "country_fmt", Node.native "country_fmt" 1),
   (Id.str "phone_fmt", Node.native "phone_fmt" 1),
   (Id.str "id", Node.native "id" 1),
   (Id.str "sum", sumNode), (Id.str "min", minNode), (Id.str "max", maxNode),
   (Id.str "avg", avgNode), (Id.str "med", medNode)]

/-- `evaluate(definitions, id, getFormValue, options)`: the stack is the
stdlib layer followed by the user layers; evaluation starts at the top. -/
def evaluate (fuel : Nat) (today : String) (definitions : List Layer) (id : Id)
    (gfv : String → Value) : Except EvalErr Value :=
  let stack := stdlibLayer today :: definitions
  evaluateScopedT fuel stack (stack.length - 1) id gfv

/-! ## Concrete programs and types used by the theorems -/

/-- The trivial form-value provider for the evaluator. -/
def gfv0 : String → Value := fun _ => .null

/-- The trivial form-value-type provider for the analyzer. -/
def fv0 : String → Option Ty := fun _ => none

/-- A mapping `([] num) -> bool`: its applied pattern forces matching to
descend into the argument's type arguments. -/
def c1m1 : TyMapping := .mk [] [.applied .arrayC [.number]] .bool

/-- A tautological mapping `a -> a`. -/
def c1m2 : TyMapping := .mk [.tvar 0] [.tvar 0] (.tvar 0)

def c1F : Ty := .func [c1m1, c1m2]

/-- The argument list `[([] $b)]`: an array of a type variable. The
variable sits *inside* the applied type, so `c1m1`'s pattern fails only
after encountering it, while `c1m2`'s variable pattern matches the whole
argument outright. -/
def c1args : List Ty := [.applied .arrayC [.tvar 1]]

/-- The canonical self-referential program: `r` defined as a call to
`r`. -/
def recProgA : ADefs := [(Id.str "r", .mk 0 (.c (Id.str "r") none))]

/-- An analyzer program whose only definition references `if`. -/
def ifProgA : ADefs := [(Id.str "x", .mk 0 (.c (Id.str "if") none))]

/-- An analyzer program whose only definition references `head`. -/
def headProgA : ADefs := [(Id.str "y", .mk 0 (.c (Id.str "head") none))]

/-- An evaluator program whose only definition references `if`. -/
def ifProgE : Layer := [(Id.str "x", Node.c (Id.str "if") none)]

/-- A program whose only definition references `head` (bound in the
value stdlib, unlike in the type stdlib). -/
def headProgE : Layer := [(Id.str "y", Node.c (Id.str "head") none)]

/-- The standard-library surface enumerated by §6.5 of the spec (the
claim's own list of names). -/
def specSurfaceNames : List String :=
  ["+", "-", "*", "/", "^", "mod",
   "floor", "ceil", "round", "trunc", "sign", "abs",
   "==", "!=", ">", "<", ">=", "<=",
   "and", "or", "not", "xor", "++",
   "map", "flat_map", "fold", "fold1", "filter",
   "index", "find_index", "length", "contains", "head", "tail", "sort",
   "sum", "min", "max", "avg", "med",
   "date_sub", "date_add", "date_today", "date_fmt", "date_get", "date_set",
   "ts_now", "tz_utc", "tz_local", "ts_from_unix", "ts_to_unix",
   "ts_from_date", "ts_to_date", "ts_parse", "ts_to_string", "ts_fmt",
   "ts_add", "ts_sub", "ts_get", "ts_set",
   "currency_fmt", "country_fmt", "phone_fmt", "if", "id"]

/-- The switch test program: `sw1`'s first condition is the non-boolean
truthy number 1, its second is `false` and its third is absent; `sw2` has
a single false case; `sw3`'s first condition is `true`. -/
def switchProg : Layer := [
  (Id.str "tnum", Node.n 1),
  (Id.str "tfalse", Node.b false),
  (Id.str "ttrue", Node.b true),
  (Id.str "v1", Node.n 10), (Id.str "v2", Node.n 20), (Id.str "v3", Node.n 30),
  (Id.str "sw1", Node.w [(some (Id.str "tnum"), Id.str "v1"),
    (some (Id.str "tfalse"), Id.str "v2"), (none, Id.str "v3")]),
  (Id.str "sw2", Node.w [(some (Id.str "tfalse"), Id.str "v1")]),
  (Id.str "sw3", Node.w [(some (Id.str "ttrue"), Id.str "v1"), (none, Id.str "v2")])]

/-- The call/arity test program (the shape of the spec's first seed
scenario, plus an arity-1 user function called with 0, 1 and 2
arguments). -/
def callProg : Layer := [
  (Id.str "a", Node.n 2),
  (Id.str "b", Node.c (Id.str "a") none),
  (Id.str "c", Node.c (Id.str "b") (some [Id.str "a"])),
  (Id.str "one", Node.n 1),
  (Id.str "add3", Node.f ["x"] [
    (Id.str "=", Node.c (Id.str "+") (some [Id.str "x", Id.str "th"])),
    (Id.str "th", Node.n 3)]),
  (Id.str "call1", Node.c (Id.str "add3") (some [Id.str "one"])),
  (Id.str "call0", Node.c (Id.str "add3") (some [])),
  (Id.str "call2", Node.c (Id.str "add3") (some [Id.str "one", Id.str "one"]))]

/-- A function type with one mapping `(num) -> (() | bool)` whose result
is a union. -/
def c9F : Ty := .func [.mk [] [.number] (.union [.null, .bool])]

/-- Applying the union receiver `(c9F | null)` to `[num]`: one reduce
pass wraps the member results — one of which is itself a union — in a
fresh union without flattening it. -/
def c9T : Ty := .applied (.union [c9F, .null]) [.number]

/-- A sample definitions object with a symbol key, an underscore-prefixed
string key and a plain string key. -/
def scopeSample : ADefs :=
  [(Id.sym 0, .mk 0 (.n 3)), (Id.str "_p", .mk 1 (.n 4)), (Id.str "q", .mk 2 (.n 5))]

/-- The analyzer program for the privacy asymmetry: a symbol-keyed
definition and a function whose body references it. -/
def symScopeProgA : ADefs := [
  (Id.sym 0, .mk 0 (.n 3)),
  (Id.str "fn", .mk 1 (.f ["x"] [(Id.str "=", .mk 2 (.c (Id.sym 0) none))]))]

/-- The matching evaluator program, plus a call of the function. -/
def symScopeProgE : Layer := [
  (Id.sym 0, Node.n 3),
  (Id.str "fn", Node.f ["x"] [(Id.str "=", Node.c (Id.sym 0) none)]),
  (Id.str "one", Node.n 1),
  (Id.str "call", Node.c (Id.str "fn") (some [Id.str "one"]))]

/-- A mapping `(str) -> bool`, which fails on a number argument without
encountering any type variable. -/
def c1m3 : TyMapping := .mk [] [.string] .bool

/-! ## Theorems -/

set_option maxRecDepth 10000

/-- Claim C1, counterexample. The claim says a mapping whose pattern
fails on a type-variable argument is skipped with the following mappings
still tried, and the applied-type stub is returned only when no mapping
fully matches. In the code (`FuncType.apply`), the stub is returned
*immediately* when `matchApply` reports a type variable: here the second
mapping `a -> a` fully matches the argument `([] $b)` (first conjunct),
yet applying the function returns the deferred stub (second conjunct),
which is a different type from the match's result (third conjunct). -/
theorem c1_counterexample :
    matchApplyT c1m2 c1args = .matched (.applied .arrayC [.tvar 1]) ∧
    applyT 100 c1F c1args = .applied c1F c1args ∧
    Ty.applied c1F c1args ≠ Ty.applied .arrayC [.tvar 1] := by
  refine ⟨rfl, rfl, ?_⟩
  intro h
  injection h with h1 h2
  rw [c1F] at h1
  exact Ty.noConfusion h1

/-- Claim C1, amended. When a mapping's `matchApply` fails after
encountering a type-variable argument, `FuncType.apply` returns the
deferred applied-type stub immediately, without trying the following
mappings; a mapping that fails without any type-variable involvement is
skipped and the following mappings are tried; and the mapping loop is
exactly what applying a function type runs (when no argument poisons the
application). -/
theorem c1_amended :
    (∀ (reduceP : Ty → Ty) (self : Ty) (m : TyMapping) (rest : List TyMapping)
        (args : List Ty),
        matchApplyT m args = .varSkip →
        funcApplyGoF reduceP self args (m :: rest) = .applied self args) ∧
    (∀ (reduceP : Ty → Ty) (self : Ty) (m : TyMapping) (rest : List TyMapping)
        (args : List Ty),
        matchApplyT m args = .noMatch →
        funcApplyGoF reduceP self args (m :: rest) = funcApplyGoF reduceP self args rest) ∧
    (∀ (fuel : Nat) (mappings : List TyMapping) (args : List Ty),
        ((args.map doesHaltT).any (· == some false)) = false →
        applyT (fuel + 1) (.func mappings) args =
          funcApplyGoF (reduceT fuel) (.func mappings) args mappings) := by
  refine ⟨?_, ?_, ?_⟩
  · intro reduceP self m rest args h
    simp [funcApplyGoF, h]
  · intro reduceP self m rest args h
    simp [funcApplyGoF, h]
  · intro fuel mappings args h
    simp only [applyT, tyEngine, h]
    rfl

/-- Claim C1, witness for the amended theorem at concrete inputs. -/
theorem c1_amended_witness :
    funcApplyGoF (reduceT 99) c1F c1args (c1m1 :: [c1m2]) = .applied c1F c1args ∧
    funcApplyGoF (reduceT 99) c1F [Ty.number] (c1m3 :: []) =
      funcApplyGoF (reduceT 99) c1F [Ty.number] [] ∧
    applyT 100 c1F c1args = funcApplyGoF (reduceT 99) c1F c1args [c1m1, c1m2] :=
  ⟨c1_amended.1 (reduceT 99) c1F c1m1 [c1m2] c1args rfl,
   c1_amended.2.1 (reduceT 99) c1F c1m3 [] [Ty.number] rfl,
   c1_amended.2.2 99 [c1m1, c1m2] c1args rfl⟩

/-- Claim C2. Analyzing the self-referential definition `r` (a call to
`r` itself) succeeds, and after the post-pass resolution of unresolved
types the result type is `never`, whose `doesHalt` is `false`. -/
theorem c2_recursive_definition_never :
    analyzeT 100 recProgA (Id.str "r") fv0 = .ok .never ["c"] [] ∧
    doesHaltT .never = some false :=
  ⟨rfl, rfl⟩

/-- Claim C3, counterexample. `map` over the string `"ab"` with the
string-to-string function `id` returns an *array* of the per-character
results, not a string, contradicting the claim that the result is
converted back to a string when every element remains a string (the
repository's own test asserts the array result). -/
theorem c3_counterexample :
    applyNativeT 100 "map" [Value.native "id" 1, Value.str "ab"] gfv0 =
      .ok (.arr [.str "a", .str "b"]) ∧
    applyNativeT 100 "map" [Value.native "id" 1, Value.str "ab"] gfv0 ≠
      .ok (.str "ab") := by
  refine ⟨rfl, ?_⟩
  intro h
  rw [show applyNativeT 100 "map" [Value.native "id" 1, Value.str "ab"] gfv0 =
    .ok (.arr [.str "a", .str "b"]) from rfl] at h
  injection h with h1
  exact Value.noConfusion h1

/-- Claim C3, amended. Only some sequence operations convert a string
input back to a string: `map` returns an array of the per-element results
for every non-empty iterable input, even when all of them are strings
(an empty string comes back unchanged, as the unmodified input), whereas
`filter` joins the kept elements back into a string (both for a constant
`true` predicate, which keeps everything, and for a predicate that never
returns strict `true`, which keeps nothing). -/
theorem c3_amended :
    applyNativeT 100 "map" [Value.native "id" 1, Value.str "ab"] gfv0 =
      .ok (.arr [.str "a", .str "b"]) ∧
    applyNativeT 100 "map" [Value.native "id" 1, Value.str ""] gfv0 = .ok (.str "") ∧
    applyNativeT 100 "filter" [Value.bool true, Value.str "ab"] gfv0 = .ok (.str "ab") ∧
    applyNativeT 100 "filter" [Value.native "id" 1, Value.str "ab"] gfv0 = .ok (.str "") :=
  ⟨rfl, rfl, rfl, rfl⟩

/-- Claim C4. The stdlib value table binds every name of the spec's
listed surface except `if`, and the stdlib type table additionally lacks
`head` and `tail`; consequently evaluating a reference to `if` fails with
an unknown-definition error, the analyzer reports `if` (and `head`) as
NOT_IN_SCOPE, while a reference to `head` still evaluates to a callable.
The repository's parser README documents `if` as "just the `if`
function", so the missing binding contradicts the repository's own
documentation. -/
theorem c4_missing_if :
    ((stdlibLayer "").all (fun p => p.1 != Id.str "if")) = true ∧
    (stdlibTypes.all (fun p => p.1 != "if" && p.1 != "head" && p.1 != "tail")) = true ∧
    ((specSurfaceNames.filter (fun n => n != "if")).all
      (fun n => (stdlibLayer "").any (fun p => p.1 == Id.str n))) = true ∧
    ((specSurfaceNames.filter (fun n => n != "if" && n != "head" && n != "tail")).all
      (fun n => stdlibTypes.any (fun p => p.1 == n))) = true ∧
    evaluate 100 "" [] (Id.str "if") gfv0 = .error (.unknownDef (Id.str "if")) ∧
    analyzeT 100 [] (Id.str "if") fv0 = .err errNotInScope [Id.str "if"] ∧
    analyzeT 100 [] (Id.str "head") fv0 = .err errNotInScope [Id.str "head"] ∧
    evaluate 100 "" [] (Id.str "head") gfv0 = .ok (.native "head" 2) :=
  ⟨rfl, rfl, rfl, rfl, rfl, rfl, rfl, rfl⟩

/-- Claim C5, counterexample. `union([never, number])` is a two-member
union containing `never` alongside `number` — `never` is *not* absorbing
under union (the code's own doc comment says `never` will "appear in a
union with other types"). -/
theorem c5_counterexample :
    unionOf [Ty.never, Ty.number] = Ty.union [Ty.never, Ty.number] ∧
    Ty.union [Ty.never, Ty.number] ≠ Ty.never :=
  ⟨rfl, fun h => Ty.noConfusion h⟩

/-- Claim C5, amended. Union keeps `never` alongside any member of a
different signature (deduplicating only by signature), while the
application half of the claim holds: `apply` returns `never` whenever the
receiver is `never`, and whenever some argument provably does not halt. -/
theorem c5_amended :
    (∀ (t : Ty), signatureT t ≠ "!" → unionOf [.never, t] = .union [.never, t]) ∧
    (∀ (fuel : Nat) (args : List Ty), applyT (fuel + 1) .never args = .never) ∧
    (∀ (fuel : Nat) (recv : Ty) (args : List Ty) (a : Ty),
        a ∈ args → doesHaltT a = some false → applyT (fuel + 1) recv args = .never) := by
  refine ⟨?_, ?_, ?_⟩
  · intro t h
    have hb : ("!" == signatureT t) = false := by
      rw [beq_eq_false_iff_ne]
      exact fun he => h he.symm
    simp [unionOf, List.foldl, unionAdd, signatureT, hb]
  · intro fuel args
    simp only [applyT, tyEngine]
    split
    · rfl
    · rfl
  · intro fuel recv args a ha hd
    have h1 : ((args.map doesHaltT).any (· == some false)) = true := by
      rw [List.any_eq_true]
      exact ⟨doesHaltT a, List.mem_map_of_mem _ ha, by simp [hd]⟩
    simp only [applyT, tyEngine, h1]
    rfl

/-- Claim C5, witness for the amended theorem at concrete inputs. -/
theorem c5_amended_witness :
    unionOf [Ty.never, Ty.number] = Ty.union [Ty.never, Ty.number] ∧
    applyT 1 Ty.never [] = Ty.never ∧
    applyT 1 Ty.bool [Ty.never] = Ty.never :=
  ⟨c5_amended.1 Ty.number (by decide),
   c5_amended.2.1 0 [],
   c5_amended.2.2 0 Ty.bool [Ty.never] Ty.never (List.mem_singleton.mpr rfl) rfl⟩

/-- Claim C6. The switch case loop, universally: with no cases left the
result is `null`; an absent condition counts as true and selects its
case; a condition evaluating to the strict boolean `true` selects its
case; a condition evaluating to any other value — including non-boolean
truthy ones — skips to the remaining cases. Concretely: in `sw1` the
first condition evaluates to the non-boolean truthy number 1 and is
skipped, the second is `false` and is skipped, and the absent third
condition counts as true, so the third case's value (30) is returned; in
`sw3` the first condition is the strict boolean `true`, so the first case
(in declaration order) wins; in `sw2` no case is selected and the result
is `null`. -/
theorem c6_switch_strict_true :
    (∀ (ev : Id → Except EvalErr Value), evalCasesF ev [] = .ok .null) ∧
    (∀ (ev : Id → Except EvalErr Value) (v : Id) (rest : List (Option Id × Id)),
        evalCasesF ev ((none, v) :: rest) = ev v) ∧
    (∀ (ev : Id → Except EvalErr Value) (c v : Id) (rest : List (Option Id × Id)),
        ev c = .ok (.bool true) → evalCasesF ev ((some c, v) :: rest) = ev v) ∧
    (∀ (ev : Id → Except EvalErr Value) (c v : Id) (rest : List (Option Id × Id))
        (r : Value),
        ev c = .ok r → r ≠ .bool true →
        evalCasesF ev ((some c, v) :: rest) = evalCasesF ev rest) ∧
    evaluate 100 "" [switchProg] (Id.str "sw1") gfv0 = .ok (.num 30) ∧
    evaluate 100 "" [switchProg] (Id.str "sw3") gfv0 = .ok (.num 10) ∧
    evaluate 100 "" [switchProg] (Id.str "sw2") gfv0 = .ok .null := by
  refine ⟨fun ev => rfl, fun ev v rest => rfl, ?_, ?_, rfl, rfl, rfl⟩
  · intro ev c v rest h
    simp [evalCasesF, h]
  · intro ev c v rest r h hne
    simp only [evalCasesF, h]

/-- Claim C6, witness for the conditional clauses at concrete inputs. -/
theorem c6_switch_strict_true_witness :
    evalCasesF (fun _ => .ok (.bool true)) [(some (Id.str "c"), Id.str "v")] =
      .ok (.bool true) ∧
    evalCasesF (fun _ => .ok (.num 1)) [(some (Id.str "c"), Id.str "v")] =
      evalCasesF (fun _ => .ok (.num 1)) [] :=
  ⟨c6_switch_strict_true.2.2.1 (fun _ => .ok (.bool true)) (Id.str "c") (Id.str "v") [] rfl,
   c6_switch_strict_true.2.2.2.1 (fun _ => .ok (.num 1)) (Id.str "c") (Id.str "v") []
     (.num 1) rfl (fun h => Value.noConfusion h)⟩

/-- Claim C7. Call-node arity behavior: `a` is a number; `b` calls the
non-callable `a` with zero arguments and yields its value; `c` calls the
non-callable `b` with one argument and fails; `call1` calls the arity-1
function `add3` with one argument and succeeds; `call0` and `call2` call
it with zero and two arguments and fail. -/
theorem c7_call_arity :
    evaluate 100 "" [callProg] (Id.str "a") gfv0 = .ok (.num 2) ∧
    evaluate 100 "" [callProg] (Id.str "b") gfv0 = .ok (.num 2) ∧
    evaluate 100 "" [callProg] (Id.str "c") gfv0 = .error (.arityMismatch 0 1) ∧
    evaluate 100 "" [callProg] (Id.str "call1") gfv0 = .ok (.num 4) ∧
    evaluate 100 "" [callProg] (Id.str "call0") gfv0 = .error (.arityMismatch 1 0) ∧
    evaluate 100 "" [callProg] (Id.str "call2") gfv0 = .error (.arityMismatch 1 2) := by
  refine ⟨rfl, rfl, rfl, ?_, rfl, rfl⟩
  rw [show evaluate 100 "" [callProg] (Id.str "call1") gfv0 = .ok (.num (1 + 3)) from rfl]
  norm_num

/-- Claim C8. For every pair of parsed dates the `months` unit of
`date_sub` is `subMonths` — the whole-month difference plus the residual
days divided by the day count of the first argument's month — and the
`years` unit is that value divided by 12. Concretely,
`date_sub('months', '2019-05-03', '2019-01-01')` is `4 + 2/31`, the
`years` unit is that divided by 12, and with the arguments' days
reversed the residual is subtracted (`4 - 2/31`), matching the
repository's test vectors. -/
theorem c8_date_sub_months :
    (∀ da db : Ymd, dateSubUnits "months" da db = subMonths da db) ∧
    (∀ da db : Ymd, dateSubUnits "years" da db = subMonths da db / 12) ∧
    applyNativeT 100 "date_sub"
      [Value.str "months", Value.str "2019-05-03", Value.str "2019-01-01"] gfv0 =
      .ok (.num (4 + 2/31)) ∧
    applyNativeT 100 "date_sub"
      [Value.str "years", Value.str "2019-05-03", Value.str "2019-01-01"] gfv0 =
      .ok (.num ((4 + 2/31) / 12)) ∧
    applyNativeT 100 "date_sub"
      [Value.str "months", Value.str "2019-05-01", Value.str "2019-01-03"] gfv0 =
      .ok (.num (4 - 2/31)) := by
  refine ⟨fun da db => rfl, fun da db => rfl, ?_, ?_, ?_⟩
  · rw [show applyNativeT 100 "date_sub"
        [Value.str "months", Value.str "2019-05-03", Value.str "2019-01-01"] gfv0 =
        .ok (.num (((4 : Int) : ℚ) + ((2 : Int) : ℚ) / ((31 : Int) : ℚ))) from rfl]
    norm_num
  · rw [show applyNativeT 100 "date_sub"
        [Value.str "years", Value.str "2019-05-03", Value.str "2019-01-01"] gfv0 =
        .ok (.num ((((4 : Int) : ℚ) + ((2 : Int) : ℚ) / ((31 : Int) : ℚ)) / 12)) from rfl]
    norm_num
  · rw [show applyNativeT 100 "date_sub"
        [Value.str "months", Value.str "2019-05-01", Value.str "2019-01-03"] gfv0 =
        .ok (.num (((4 : Int) : ℚ) - ((2 : Int) : ℚ) / ((31 : Int) : ℚ))) from rfl]
    norm_num

/-- Claim C9, counterexample. One `reduce` pass is not a signature
fixpoint: reducing the application of the union receiver `(c9F | null)`
to `[num]` wraps the member results — one of which is itself a union —
in a fresh nested union, and only the second pass flattens it, changing
the signature. -/
theorem c9_counterexample :
    signatureT (reduceT 10 c9T) ≠ signatureT (reduceT 10 (reduceT 10 c9T)) := by
  decide

/-- Claim C9, amended. A single reduce pass is not a signature fixpoint
for all types: applying a union receiver whose member function results in
a union leaves a nested union after one pass (`((() num) | (() | bool))`
for the exhibited type); the second pass flattens it, and from the second
pass on the signature is stable. -/
theorem c9_amended :
    signatureT (reduceT 10 c9T) = "((() num) | (() | bool))" ∧
    signatureT (reduceT 10 (reduceT 10 c9T)) = "((() num) | () | bool)" ∧
    signatureT (reduceT 10 (reduceT 10 c9T)) =
      signatureT (reduceT 10 (reduceT 10 (reduceT 10 c9T))) :=
  ⟨by decide, by decide, by decide⟩

/-- Claim C10. The analyzer's child scope for a function body is built by
a `for…in` loop, which enumerates only string keys, filtered to those not
starting with `_` (first conjunct, on a sample with a symbol key, an
underscore key and a plain key); a body reference to a symbol-keyed
parent definition therefore fails with NOT_IN_SCOPE (second conjunct),
while the evaluator, whose stack keeps all parent layers, resolves the
same reference and the call evaluates to 3 (third conjunct). -/
theorem c10_symbol_scope_asymmetry :
    allowedParentScopeDefs scopeSample = [(Id.str "q", .mk 2 (.n 5))] ∧
    analyzeT 100 symScopeProgA (Id.str "fn") fv0 =
      .err errNotInScope [Id.str "fn", Id.sym 0] ∧
    evaluate 100 "" [symScopeProgE] (Id.str "call") gfv0 = .ok (.num 3) :=
  ⟨rfl, rfl, rfl⟩

end AksoScript
